import Mathlib

/-!
Shallow embedding of the shift-rota scheduling core (schedule.py, models.py,
routes.py) and verification of the frozen claims about it.

Conventions of the embedding:
* SQLAlchemy rows become Lean structures; the database tables touched by a
  function become explicit list-valued state threaded through it.
* Timestamps are `Nat` (seconds); `datetime.utcnow()` becomes a `now` argument.
* Monetary amounts (`cost_estimate`, thresholds) are `ℚ`; all constants that
  appear in the source (10.0, 100.0, 0.8) are dyadic, so the float comparisons
  of the source coincide with the rational ones on every input of interest.
* Python dicts with insertion order become association lists in insertion
  order (the shift names of a template are pairwise distinct, so keyed
  updates and ordered pairs agree).
* Fallible operations (a DB insert that can violate a UNIQUE constraint, the
  external oracle call) return `Except`.
* The generator's output entries carry the whole `Employee` record; the source
  serializes `emp.name` / `emp.designation.title` at the same spot
  (schedule.py:412, 419-421), a projection of the record carried here.
-/

namespace Scheduler

/-- models.py:16-20 `Designation`: title and hierarchy level (1 = top). -/
structure Designation where
  title : String
  hierarchy_level : Nat
deriving DecidableEq

/-- models.py:22-31 `Employee` (fields the scheduling core reads). -/
structure Employee where
  id : Nat
  name : String
  designation : Designation
deriving DecidableEq

/-- models.py:33-37 `Team` (fields the generator reads). -/
structure Team where
  name : String
  shift_template : String
  people_per_shift : Nat
deriving DecidableEq

/-- models.py:55-69 `EmployeeHistory` row, as seen by the state manager once
the rows for one (employee, team) are loaded newest-first: only
`shift_assigned` (nullable) and `was_floater` are read. -/
structure HistoryRecord where
  shift_assigned : Option String
  was_floater : Bool
deriving DecidableEq

/-- Derived per-employee context dict built by
`StateManager.get_employee_context` (schedule.py:146-151). -/
structure EmployeeContext where
  last_shifts : List String
  floater_history : List Bool
  months_since_floater : Nat
  consecutive_shift_count : Nat
deriving DecidableEq

/-- One value of the per-shift dict emitted by the generator
(schedule.py:411-414): fixed staff and floaters, in emission order. -/
structure ShiftAssignment where
  assigned_staff : List Employee
  floaters : List Employee
deriving DecidableEq

/-- One month of output: ordered mapping shift name to its assignment. -/
abbrev MonthlyAssignment := List (String × ShiftAssignment)

/-- schedule.py:153-158 `_calculate_months_since_floater`: index of the first
record with `was_floater`, else the number of records. -/
def calculateMonthsSinceFloater : List HistoryRecord → Nat
  | [] => 0
  | r :: rest => if r.was_floater then 0 else calculateMonthsSinceFloater rest + 1

/-- schedule.py:160-174 `_calculate_consecutive_shifts`: length of the leading
run of records sharing the first record's `shift_assigned`. -/
def calculateConsecutiveShifts : List HistoryRecord → Nat
  | [] => 0
  | r :: rest => 1 + (rest.takeWhile (fun x => x.shift_assigned == r.shift_assigned)).length

/-- schedule.py:139-151 `StateManager.get_employee_context`: the DB query
`order_by(created_at.desc()).limit(months_back)` becomes `take months_back` of
the newest-first history list. `last_shifts` keeps only truthy (non-null)
assigned shifts, as the source's list comprehension does. -/
def get_employee_context (fullHistory : List HistoryRecord) (months_back : Nat) :
    EmployeeContext :=
  let history := fullHistory.take months_back
  { last_shifts := history.filterMap (fun h => h.shift_assigned)
    floater_history := history.map (fun h => h.was_floater)
    months_since_floater := calculateMonthsSinceFloater history
    consecutive_shift_count := calculateConsecutiveShifts history }

/-- schedule.py:426-433 `_get_stability_months`. -/
def _get_stability_months (hierarchy_level : Nat) : Nat :=
  if hierarchy_level = 1 then 3 else if hierarchy_level = 2 then 2 else 1

/-- schedule.py:322 `SHIFT_DESIRABILITY_ORDER`. -/
def SHIFT_DESIRABILITY_ORDER : List String :=
  ["Morning", "Afternoon", "Evening", "Night", "Early Morning"]

/-- schedule.py:324-330 `team_shifts_map.get(template, [])`. -/
def team_shifts_map (template : String) : List String :=
  if template = "3-shift" then ["Morning", "Afternoon", "Night"]
  else if template = "4-shift" then ["Morning", "Afternoon", "Evening", "Night"]
  else if template = "5-shift" then ["Early Morning", "Morning", "Afternoon", "Evening", "Night"]
  else []

/-- Sort key of schedule.py:381-382: the tuple
`(-months_since_floater, hierarchy_level)`. -/
def floaterKey (contexts : Nat → EmployeeContext) (e : Employee) : Int × Nat :=
  (-(((contexts e.id).months_since_floater : Int)), e.designation.hierarchy_level)

/-- Python tuple comparison on the sort key: lexicographic less-or-equal. -/
def floaterKeyLe (contexts : Nat → EmployeeContext) (a b : Employee) : Bool :=
  let ka := floaterKey contexts a
  let kb := floaterKey contexts b
  ka.1 < kb.1 || (ka.1 == kb.1 && ka.2 ≤ kb.2)

/-- Stable insertion of `a` into a list sorted by `le` (before the first
element `b` with `le a b`). -/
def orderedInsertBy (le : Employee → Employee → Bool) (a : Employee) :
    List Employee → List Employee
  | [] => [a]
  | b :: l => if le a b then a :: b :: l else b :: orderedInsertBy le a l

/-- Stable sort by `le`; Python's `sorted` is stable, and any two stable sorts
for the same total preorder agree, so this models schedule.py:381-382. -/
def insertionSortBy (le : Employee → Employee → Bool) : List Employee → List Employee
  | [] => []
  | a :: l => orderedInsertBy le a (insertionSortBy le l)

/-- schedule.py:373-384: floater selection. `num_floaters` is the (possibly
negative) Python int `len(employees) - required_fixed`; when positive, the
level-1 employees are excluded, the rest sorted by
`(-months_since_floater, hierarchy_level)`, and the first `num_floaters`
taken. -/
def floaterCandidates (employees : List Employee) (contexts : Nat → EmployeeContext)
    (required_fixed : Nat) : List Employee :=
  let num_floaters : Int := (employees.length : Int) - (required_fixed : Int)
  if 0 < num_floaters then
    let eligible_for_floater := employees.filter (fun e => 1 < e.designation.hierarchy_level)
    (insertionSortBy (floaterKeyLe contexts) eligible_for_floater).take num_floaters.toNat
  else []

/-- schedule.py:394-396: round-robin partition of the fixed staff,
`shift_teams[i % len(shifts)].append(emp)`. -/
def roundRobinPartition (xs : List Employee) (n : Nat) : List (List Employee) :=
  (List.range n).map (fun j =>
    (((List.range xs.length).zip xs).filter (fun p => p.1 % n == j)).map (fun p => p.2))

/-- Number of members of `team` that trigger the swap at schedule.py:405-409:
stability window ≤ 1 month and a non-empty `last_shifts` whose head equals the
shift about to be assigned. -/
def staleCount (contexts : Nat → EmployeeContext) (shift_name : String)
    (team : List Employee) : Nat :=
  (team.filter (fun e =>
    decide (_get_stability_months e.designation.hierarchy_level ≤ 1) &&
      ((contexts e.id).last_shifts.head? == some shift_name))).length

/-- The loop of schedule.py:399-414, with Python's exact semantics:
`for i, (shift_name, team) in enumerate(zip(shifts, shift_teams))` binds
`team` to the current content of `shift_teams[i]` when the iterator reaches
index `i`; each staling member swaps `shift_teams[i]` with `shift_teams[i+1]`
(net effect: the parity of the stale count), while the emission at index `i`
uses the already-bound `team`.  So after an odd number of swaps the same team
is yielded again at index `i+1` and the team swapped into the consumed slot
`i` is never yielded. -/
def assignShiftsLoop (contexts : Nat → EmployeeContext) :
    List String → List (List Employee) → List (String × List Employee)
  | [], _ => []
  | _ :: _, [] => []
  | shift_name :: restNames, team :: restTeams =>
    let s := staleCount contexts shift_name team
    let nextTeams :=
      if restNames ≠ [] ∧ s % 2 = 1 then
        match restTeams with
        | [] => restTeams
        | _ :: rest2 => team :: rest2
      else restTeams
    (shift_name, team) :: assignShiftsLoop contexts restNames nextTeams

/-- schedule.py:417-422: floater `i` is appended to the entry of shift
`shifts[i % len(shifts)]`; this gives the floater list of a given shift name
(shift names of a template are distinct). -/
def distributeFloaters (shifts : List String) (cands : List Employee)
    (shift_name : String) : List Employee :=
  (((List.range cands.length).zip cands).filter
    (fun p => shifts[p.1 % shifts.length]? == some shift_name)).map (fun p => p.2)

/-- schedule.py:369-424 `_generate_month_with_constraints`.  `people_per_shift`
and `month_index` are parameters of the source function that its body never
reads. -/
def _generate_month_with_constraints (employees : List Employee)
    (contexts : Nat → EmployeeContext) (shifts : List String)
    (people_per_shift : Nat) (required_fixed : Nat) (month_index : Nat) :
    MonthlyAssignment :=
  let cands := floaterCandidates employees contexts required_fixed
  let fixed_staff := employees.filter (fun e => !(cands.contains e))
  let shift_teams := roundRobinPartition fixed_staff shifts.length
  let emitted := assignShiftsLoop contexts shifts shift_teams
  emitted.map (fun p =>
    (p.1, { assigned_staff := p.2, floaters := distributeFloaters shifts cands p.1 }))

/-- schedule.py:318-367 `_generate_with_constraints`.  Months are the keys of
the returned dict in generation order; the human-readable month labels are a
pure formatting of (start date + index) and are abstracted to list position.
All employee contexts are computed once, before the month loop
(schedule.py:342-344); the per-month `if month_assignment: ... else return {}`
branch is dead because with a non-empty shift list every month emits at least
one key. -/
def _generate_with_constraints (team : Team) (all_employees : List Employee)
    (months : Nat) (historyOf : Nat → List HistoryRecord) :
    List MonthlyAssignment :=
  let shifts_in_template := team_shifts_map team.shift_template
  let desirable_shifts := SHIFT_DESIRABILITY_ORDER.filter
    (fun s => shifts_in_template.contains s)
  let num_shifts := desirable_shifts.length
  if num_shifts = 0 then []
  else
    let required_for_fixed := num_shifts * team.people_per_shift
    let contexts := fun id => get_employee_context (historyOf id) 3
    (List.range months).map (fun month_index =>
      _generate_month_with_constraints all_employees contexts desirable_shifts
        team.people_per_shift required_for_fixed month_index)

/-- schedule.py:305-314 in `generate_monthly_assignments_enhanced` (cache-miss
path): `save_assignment_history` and `save_to_cache` run iff the generation
result is truthy, i.e. a non-empty dict. -/
def enhanced_persists_history (team : Team) (all_employees : List Employee)
    (months : Nat) (historyOf : Nat → List HistoryRecord) : Bool :=
  _generate_with_constraints team all_employees months historyOf != []

/-- models.py:96-104 `ScheduleCache` row.  `cache_key` carries a
`unique=True` constraint (models.py:99), enforced below at insert time. -/
structure CacheEntry where
  cache_key : String
  cached_data : String
  cache_type : String
  created_at : Nat
  expires_at : Nat
  hit_count : Nat
deriving DecidableEq

/-- The row constructed by `CacheManager.save_to_cache`
(schedule.py:260-267): `expires_at = utcnow() + timedelta(hours=expire_hours)`
with time in seconds. -/
def storedEntry (now : Nat) (cache_key cached_data cache_type : String)
    (expire_hours : Nat) : CacheEntry :=
  { cache_key := cache_key
    cached_data := cached_data
    cache_type := cache_type
    created_at := now
    expires_at := now + expire_hours * 3600
    hit_count := 0 }

/-- schedule.py:257-270 `CacheManager.save_to_cache`: unconditionally INSERTs
a fresh row; the commit raises an IntegrityError when a row with the same
`cache_key` already exists, because of the `unique=True` constraint of
models.py:99. -/
def save_to_cache (state : List CacheEntry) (now : Nat) (cache_key data : String)
    (cache_type : String) (expire_hours : Nat) : Except String (List CacheEntry) :=
  if state.any (fun e => e.cache_key == cache_key) then
    Except.error "IntegrityError: UNIQUE constraint failed on cache_key"
  else
    Except.ok (state ++ [storedEntry now cache_key data cache_type expire_hours])

/-- Increment `hit_count` of the first row matched by `p`
(schedule.py:251-252 mutates the fetched row). -/
def bumpFirst (p : CacheEntry → Bool) : List CacheEntry → List CacheEntry
  | [] => []
  | e :: rest =>
    if p e then { e with hit_count := e.hit_count + 1 } :: rest else e :: bumpFirst p rest

/-- schedule.py:242-255 `CacheManager.get_cached_schedule`:
`filter_by(cache_key=..., cache_type='schedule').first()`, returned only when
`expires_at > utcnow()`; a hit also bumps the row's `hit_count`.  Returns the
looked-up payload and the table state after the call. -/
def get_cached_schedule (state : List CacheEntry) (now : Nat) (cache_key : String) :
    Option String × List CacheEntry :=
  match state.find? (fun e => e.cache_key == cache_key && e.cache_type == "schedule") with
  | none => (none, state)
  | some e =>
    if now < e.expires_at then
      (some e.cached_data,
        bumpFirst (fun x => x.cache_key == cache_key && x.cache_type == "schedule") state)
    else (none, state)

/-- Shape of the JSON report of schedule.py:455-462 / the error report of
schedule.py:483-489. -/
structure ValidationReport where
  is_valid : Bool
  total_violations : Nat
  violations : List String
  severity : String
  recommendations : List String
deriving DecidableEq

/-- schedule.py:435-491 `validate_schedule_with_enhanced_ai`, oracle part.
`rule_violations` is the output of the local pass
(`EnhancedScheduleValidator.validate_against_history`), computed before the
try block.  The whole oracle interaction — configure, generate, JSON-parse,
and the shape of the parsed value — is one `Except`-valued input; the
`except Exception` arm (schedule.py:482-491) builds the degraded report.  The
function is total: no branch re-raises. -/
def validate_schedule_with_enhanced_ai (rule_violations : List String)
    (oracle_response : Except String ValidationReport) : ValidationReport :=
  match oracle_response with
  | Except.ok result => result
  | Except.error e =>
    { is_valid := false
      total_violations := rule_violations.length
      violations := rule_violations ++ ["AI validation error: " ++ e]
      severity := "high"
      recommendations := ["Manual review required due to AI validation failure"] }

/-- models.py:82-91 `APIUsageLog` row (fields the governor reads). -/
structure UsageLog where
  user_id : Nat
  api_type : String
  cost_estimate : ℚ
  timestamp : Nat
deriving DecidableEq

/-- routes.py:23-27 `RATE_LIMITS` (limit, window-in-seconds per action kind). -/
structure RateLimitConfig where
  limit : Nat
  window : Nat
deriving DecidableEq

/-- routes.py:23-27: the three configured action kinds. -/
def RATE_LIMITS : List (String × RateLimitConfig) :=
  [("schedule_generation", ⟨10, 3600⟩), ("ai_validation", ⟨20, 3600⟩),
   ("schedule_fixes", ⟨5, 3600⟩)]

/-- routes.py:36-54 `check_rate_limit`: unknown kinds short-circuit to
`(True, "Unknown action type")`; otherwise the user's logs of that kind inside
the trailing window are counted against the kind's ceiling. -/
def check_rate_limit (logs : List UsageLog) (now : Nat) (user_id : Nat)
    (action_type : String) : Bool × String :=
  match RATE_LIMITS.find? (fun p => p.1 == action_type) with
  | none => (true, "Unknown action type")
  | some p =>
    let window_start := now - p.2.window
    let recent_calls := (logs.filter (fun l =>
      l.user_id == user_id && l.api_type == action_type &&
        decide (window_start ≤ l.timestamp))).length
    if p.2.limit ≤ recent_calls then
      (false, "Rate limit exceeded. Maximum " ++ toString p.2.limit ++ " " ++
        action_type ++ " calls per hour.")
    else
      (true, toString recent_calls ++ "/" ++ toString p.2.limit ++
        " calls used in current window")

/-- routes.py:567 and routes.py:794: both schedule-generation routes consult
the rate checker with the kind string `'generate'`. -/
def generate_schedule_rate_check (logs : List UsageLog) (now : Nat) (user_id : Nat) :
    Bool × String :=
  check_rate_limit logs now user_id "generate"

/-- routes.py:794 `batch_generate`, same per-iteration consult. -/
def batch_generate_rate_check (logs : List UsageLog) (now : Nat) (user_id : Nat) :
    Bool × String :=
  check_rate_limit logs now user_id "generate"

/-- routes.py:30-34 `COST_THRESHOLDS['daily_limit']`. -/
def COST_DAILY_LIMIT : ℚ := 10

/-- routes.py:30-34 `COST_THRESHOLDS['monthly_limit']`. -/
def COST_MONTHLY_LIMIT : ℚ := 100

/-- routes.py:30-34 `COST_THRESHOLDS['warning_threshold']` (= 0.8). -/
def COST_WARNING_THRESHOLD : ℚ := 8 / 10

/-- The SQL aggregate of routes.py:62-65 / 69-72: sum of `cost_estimate` over
the user's logs with `timestamp >= since` (`or 0.0` is the empty sum). -/
def sumCostSince (logs : List UsageLog) (user_id : Nat) (since : Nat) : ℚ :=
  ((logs.filter (fun l => l.user_id == user_id && decide (since ≤ l.timestamp))).map
    (fun l => l.cost_estimate)).sum

/-- routes.py:56-89 `check_cost_limits`: hard block when either calendar-window
sum is `>=` its threshold, else warnings at 80% of either threshold.
`day_start` and `month_start` are the midnight/first-of-month instants the
source derives from the clock.  The source returns a bare string on a block
and a list of warning strings otherwise; both are lists here. -/
def check_cost_limits (logs : List UsageLog) (user_id : Nat)
    (day_start month_start : Nat) : Bool × List String :=
  let daily_cost := sumCostSince logs user_id day_start
  let monthly_cost := sumCostSince logs user_id month_start
  if COST_DAILY_LIMIT ≤ daily_cost then (false, ["Daily cost limit exceeded"])
  else if COST_MONTHLY_LIMIT ≤ monthly_cost then (false, ["Monthly cost limit exceeded"])
  else
    (true,
      (if COST_DAILY_LIMIT * COST_WARNING_THRESHOLD ≤ daily_cost then
        ["Daily cost warning"] else []) ++
      (if COST_MONTHLY_LIMIT * COST_WARNING_THRESHOLD ≤ monthly_cost then
        ["Monthly cost warning"] else []))

/-- Number of times employee `e` occurs in a month, over all shifts, fixed
staff and floater lists together. -/
def countEmployee (m : MonthlyAssignment) (e : Employee) : Nat :=
  (m.map (fun p => p.2.assigned_staff.count e + p.2.floaters.count e)).sum

/-- Fixture: an intern-level (hierarchy 3) designation. -/
def dIntern : Designation := { title := "Intern", hierarchy_level := 3 }

/-- Fixture: a level-2 designation. -/
def dSenior : Designation := { title := "Senior", hierarchy_level := 2 }

/-- Fixture: the top (level-1) designation. -/
def dChief : Designation := { title := "Chief", hierarchy_level := 1 }

/-- Fixture employee, level 3. -/
def eA : Employee := { id := 1, name := "Alice", designation := dIntern }

/-- Fixture employee, level 3. -/
def eB : Employee := { id := 2, name := "Bob", designation := dIntern }

/-- Fixture employee, level 3. -/
def eC : Employee := { id := 3, name := "Cara", designation := dIntern }

/-- Fixture employee, level 1. -/
def eL1 : Employee := { id := 4, name := "Dana", designation := dChief }

/-- Fixture employee, level 2. -/
def eA2 : Employee := { id := 5, name := "Evan", designation := dSenior }

/-- Fixture team: 3-shift template, one person per shift. -/
def teamT3 : Team := { name := "T", shift_template := "3-shift", people_per_shift := 1 }

/-- Fixture team: 3-shift template, two people per shift (needs 6 fixed). -/
def teamU3 : Team := { name := "U", shift_template := "3-shift", people_per_shift := 2 }

/-- Fixture history provider: employee 1 was on Morning (fixed) last month,
nobody else has history. -/
def histSwap : Nat → List HistoryRecord :=
  fun id => if id = 1 then [{ shift_assigned := some "Morning", was_floater := false }] else []

/-- Fixture history provider: no employee has any history. -/
def emptyHistF : Nat → List HistoryRecord := fun _ => []

/-- Fixture history: exactly one record, a fixed (non-floater) Morning month. -/
def histOneRecord : List HistoryRecord :=
  [{ shift_assigned := some "Morning", was_floater := false }]

/-- The single month generated for `teamT3`, roster [eA, eB, eC], with
`histSwap` as history (the input on which the rotation swap-repair fires). -/
def monthSwapCase : MonthlyAssignment :=
  (_generate_with_constraints teamT3 [eA, eB, eC] 1 histSwap).headD []

/-- The two-month schedule for `teamT3`, roster [eA, eB, eC], empty history. -/
def schedTwoMonths : List MonthlyAssignment :=
  _generate_with_constraints teamT3 [eA, eB, eC] 2 emptyHistF

/-- Fixture roster for the floater-eligibility witness: levels 1, 2, 3, 3 —
one floater slot on `teamT3`. -/
def rosterFour : List Employee := [eL1, eA2, eB, eC]

/-- The month the generator produces for `rosterFour` on `teamT3` with no
history: eA2 (level 2) floats for Morning. -/
def monthFourCase : MonthlyAssignment :=
  [("Morning", { assigned_staff := [eL1], floaters := [eA2] }),
   ("Afternoon", { assigned_staff := [eB], floaters := [] }),
   ("Night", { assigned_staff := [eC], floaters := [] })]

/-- Fixture usage log: one generation costing exactly the daily limit. -/
def logsAtLimit : List UsageLog :=
  [{ user_id := 1, api_type := "generate", cost_estimate := 10, timestamp := 5 }]

theorem mem_orderedInsertBy {le : Employee → Employee → Bool} {a x : Employee}
    {l : List Employee} (h : x ∈ orderedInsertBy le a l) : x = a ∨ x ∈ l := by
  induction l with
  | nil =>
    simp only [orderedInsertBy, List.mem_singleton] at h
    exact Or.inl h
  | cons b t ih =>
    simp only [orderedInsertBy] at h
    split at h
    · simpa using h
    · rcases List.mem_cons.mp h with h1 | h2
      · exact Or.inr (by simp [h1])
      · rcases ih h2 with h3 | h4
        · exact Or.inl h3
        · exact Or.inr (List.mem_cons_of_mem b h4)

theorem mem_insertionSortBy {le : Employee → Employee → Bool} {x : Employee} :
    ∀ {l : List Employee}, x ∈ insertionSortBy le l → x ∈ l
  | [], h => by simp [insertionSortBy] at h
  | a :: t, h => by
    simp only [insertionSortBy] at h
    rcases mem_orderedInsertBy h with h1 | h2
    · simp [h1]
    · exact List.mem_cons_of_mem a (mem_insertionSortBy h2)

theorem mem_distributeFloaters {shifts : List String} {cands : List Employee}
    {shift_name : String} {f : Employee}
    (h : f ∈ distributeFloaters shifts cands shift_name) : f ∈ cands := by
  simp only [distributeFloaters, List.mem_map] at h
  obtain ⟨⟨i, x⟩, hp, rfl⟩ := h
  exact (List.of_mem_zip (List.mem_filter.mp hp).1).2

theorem floaterCandidates_level {employees : List Employee}
    {contexts : Nat → EmployeeContext} {required_fixed : Nat} {f : Employee}
    (h : f ∈ floaterCandidates employees contexts required_fixed) :
    1 < f.designation.hierarchy_level := by
  simp only [floaterCandidates] at h
  split at h
  · have h1 := mem_insertionSortBy (List.take_subset _ _ h)
    exact of_decide_eq_true (List.mem_filter.mp h1).2
  · simp at h

theorem month_floater_level {employees : List Employee}
    {contexts : Nat → EmployeeContext} {shifts : List String}
    {pps rf mi : Nat} {p : String × ShiftAssignment}
    (hp : p ∈ _generate_month_with_constraints employees contexts shifts pps rf mi)
    {f : Employee} (hf : f ∈ p.2.floaters) : 1 < f.designation.hierarchy_level := by
  simp only [_generate_month_with_constraints, List.mem_map] at hp
  obtain ⟨q, hq, rfl⟩ := hp
  exact floaterCandidates_level (mem_distributeFloaters hf)

/-- C7: in every month of every generated schedule, every employee in any
shift's floater list has hierarchy level strictly greater than 1 — the
floater pool is drawn only from the level-greater-than-1 eligible filter of
schedule.py:378. -/
theorem c7_no_level1_floater (team : Team) (emps : List Employee) (months : Nat)
    (historyOf : Nat → List HistoryRecord) (m : MonthlyAssignment)
    (hm : m ∈ _generate_with_constraints team emps months historyOf)
    (p : String × ShiftAssignment) (hp : p ∈ m) (f : Employee)
    (hf : f ∈ p.2.floaters) : 1 < f.designation.hierarchy_level := by
  simp only [_generate_with_constraints] at hm
  split at hm
  · simp at hm
  · simp only [List.mem_map] at hm
    obtain ⟨mi, _, rfl⟩ := hm
    exact month_floater_level hp hf

theorem c7_no_level1_floater_witness : 1 < eA2.designation.hierarchy_level :=
  c7_no_level1_floater teamT3 rosterFour 1 emptyHistF monthFourCase (by decide)
    ("Morning", { assigned_staff := [eL1], floaters := [eA2] }) (by decide) eA2 (by decide)

/-- C1 (code bug): on a roster of exactly shiftCount × peoplePerShift active
members (3 = 3 × 1) where the swap-repair of schedule.py:405-409 fires (Alice,
level 3, had Morning last month and is dealt Morning again), the produced
month lists Alice under two shifts and omits Bob entirely: the
exactly-once roster-coverage invariant fails whenever the swap fires, because
the loop emits the pre-swap `team` binding while the iterator then re-yields
the swapped team at the next index. -/
theorem c1_roster_coverage_bug :
    (team_shifts_map teamT3.shift_template).length * teamT3.people_per_shift = 3 ∧
    [eA, eB, eC].length = 3 ∧
    (_generate_with_constraints teamT3 [eA, eB, eC] 1 histSwap).length = 1 ∧
    countEmployee monthSwapCase eA = 2 ∧
    countEmployee monthSwapCase eB = 0 := by decide

/-- C2 (code bug): a 2-month run for a roster whose members all carry a
1-month stability window produces two identical months — Alice keeps Morning
in both — because all employee contexts are computed once before the month
loop (schedule.py:342-344) and never refreshed from the just-generated month,
so month 2's rotation check does not see month 1's output. -/
theorem c2_month_chaining_bug :
    schedTwoMonths.length = 2 ∧
    schedTwoMonths[0]? = schedTwoMonths[1]? ∧
    _get_stability_months eA.designation.hierarchy_level = 1 ∧
    ((schedTwoMonths.headD []).find? (fun p => p.1 == "Morning")).map
      (fun p => p.2.assigned_staff) = some [eA] := by decide

/-- C3 counterexample: a 1-member roster against a 3-shift, 2-per-shift team
(6 required) does not fail at all — the generator returns a non-empty
(understaffed) schedule and the enhanced wrapper persists its history; no
InsufficientStaffError exists in the code. -/
theorem c3_counterexample :
    (team_shifts_map teamU3.shift_template).length * teamU3.people_per_shift = 6 ∧
    [eA].length = 1 ∧
    _generate_with_constraints teamU3 [eA] 1 emptyHistF ≠ [] ∧
    enhanced_persists_history teamU3 [eA] 1 emptyHistF = true := by decide

theorem generate_length_of_shifts (team : Team) (emps : List Employee)
    (months : Nat) (historyOf : Nat → List HistoryRecord)
    (hne : (SHIFT_DESIRABILITY_ORDER.filter
      (fun s => (team_shifts_map team.shift_template).contains s)).length ≠ 0) :
    (_generate_with_constraints team emps months historyOf).length = months := by
  simp only [_generate_with_constraints]
  rw [if_neg hne]
  simp

theorem generate_invalid_template_empty (team : Team) (emps : List Employee)
    (months : Nat) (historyOf : Nat → List HistoryRecord)
    (ht : team_shifts_map team.shift_template = []) :
    _generate_with_constraints team emps months historyOf = [] := by
  simp only [_generate_with_constraints, ht]
  rw [if_pos (by decide)]

/-- C3 amended: a too-small roster never makes the generator fail — with any
recognized template it returns one assignment per requested month regardless
of roster size (and the understaffed result is persisted, per the
counterexample); only an unrecognized template aborts, yielding an empty
result with no history persisted (via an empty-dict return, not an
InvalidTemplateError exception — neither error class exists in the code). -/
theorem c3_amended_no_staffing_failure (team : Team) (emps : List Employee)
    (months : Nat) (historyOf : Nat → List HistoryRecord) :
    (team.shift_template = "3-shift" ∨ team.shift_template = "4-shift" ∨
        team.shift_template = "5-shift" →
      (_generate_with_constraints team emps months historyOf).length = months) ∧
    (team.shift_template ≠ "3-shift" → team.shift_template ≠ "4-shift" →
        team.shift_template ≠ "5-shift" →
      _generate_with_constraints team emps months historyOf = [] ∧
      enhanced_persists_history team emps months historyOf = false) := by
  constructor
  · intro h
    rcases h with h | h | h <;>
      exact generate_length_of_shifts team emps months historyOf (by rw [h]; decide)
  · intro h1 h2 h3
    have ht : team_shifts_map team.shift_template = [] := by
      simp [team_shifts_map, h1, h2, h3]
    have hg := generate_invalid_template_empty team emps months historyOf ht
    refine ⟨hg, ?_⟩
    simp [enhanced_persists_history, hg]

theorem c3_amended_witness :
    (_generate_with_constraints teamU3 [eA] 2 emptyHistF).length = 2 :=
  (c3_amended_no_staffing_failure teamU3 [eA] 2 emptyHistF).1 (Or.inl rfl)

theorem find?_append_of_all_false {p : CacheEntry → Bool} {l1 l2 : List CacheEntry}
    (h : ∀ x ∈ l1, p x = false) : (l1 ++ l2).find? p = l2.find? p := by
  induction l1 with
  | nil => rfl
  | cons a t ih =>
    rw [List.cons_append, List.find?_cons_of_neg _ (by simp [h a (List.mem_cons_self a t)])]
    exact ih (fun x hx => h x (List.mem_cons_of_mem a hx))

/-- C4: storing under a fingerprint not yet in the cache table succeeds, and a
later lookup returns the stored payload exactly when strictly less than the
ttl has elapsed since the store (`expires_at > utcnow()`, schedule.py:250):
at or past the ttl the entry is treated as absent. -/
theorem c4_cache_ttl_roundtrip (state : List CacheEntry) (now t : Nat)
    (cache_key data : String) (expire_hours : Nat)
    (hfresh : ∀ e ∈ state, e.cache_key ≠ cache_key) (hnow : now ≤ t) :
    save_to_cache state now cache_key data "schedule" expire_hours =
      Except.ok (state ++ [storedEntry now cache_key data "schedule" expire_hours]) ∧
    (get_cached_schedule
        (state ++ [storedEntry now cache_key data "schedule" expire_hours]) t cache_key).1 =
      (if t - now < expire_hours * 3600 then some data else none) := by
  have hanyf : state.any (fun e => e.cache_key == cache_key) = false := by
    rw [List.any_eq_false]
    intro e he
    simp [hfresh e he]
  constructor
  · simp [save_to_cache, hanyf]
  · have hfind : (state ++ [storedEntry now cache_key data "schedule" expire_hours]).find?
        (fun e => e.cache_key == cache_key && e.cache_type == "schedule") =
        some (storedEntry now cache_key data "schedule" expire_hours) := by
      rw [find?_append_of_all_false (fun x hx => by simp [hfresh x hx])]
      simp [List.find?, storedEntry]
    simp only [get_cached_schedule, hfind]
    have hcond : (t < (storedEntry now cache_key data "schedule" expire_hours).expires_at)
        ↔ (t - now < expire_hours * 3600) := by
      simp only [storedEntry]
      omega
    by_cases hlt : t - now < expire_hours * 3600
    · rw [if_pos (hcond.mpr hlt), if_pos hlt]
      rfl
    · rw [if_neg (fun hh => hlt (hcond.mp hh)), if_neg hlt]

theorem c4_cache_ttl_witness :
    save_to_cache [] 0 "fpc4" "X" "schedule" 24 =
      Except.ok ([] ++ [storedEntry 0 "fpc4" "X" "schedule" 24]) ∧
    (get_cached_schedule ([] ++ [storedEntry 0 "fpc4" "X" "schedule" 24]) 3600 "fpc4").1 =
      (if 3600 - 0 < 24 * 3600 then some "X" else none) :=
  c4_cache_ttl_roundtrip [] 0 3600 "fpc4" "X" 24 (by simp) (by decide)

/-- C5 (code bug): a first store of a fingerprint succeeds, but a second store
of the same fingerprint hits the `unique=True` constraint on
`ScheduleCache.cache_key` (models.py:99) and the INSERT that
`save_to_cache` unconditionally issues (schedule.py:262-270) fails instead of
accumulating a second entry. -/
theorem c5_second_store_integrity_error :
    save_to_cache [] 0 "fpc5" "X" "schedule" 24 =
      Except.ok [storedEntry 0 "fpc5" "X" "schedule" 24] ∧
    save_to_cache [storedEntry 0 "fpc5" "X" "schedule" 24] 1 "fpc5" "Y" "schedule" 24 =
      Except.error "IntegrityError: UNIQUE constraint failed on cache_key" := by
  constructor <;> rfl

/-- C6 counterexample: an employee whose whole history is one non-floater
record gets months-since-floater 1, not the window length 3 —
`_calculate_months_since_floater` falls back to `len(history)`
(schedule.py:158), the number of records actually fetched. -/
theorem c6_counterexample :
    (histOneRecord.all fun r => !r.was_floater) = true ∧
    (get_employee_context histOneRecord 3).months_since_floater = 1 ∧
    (get_employee_context histOneRecord 3).months_since_floater ≠ 3 := by decide

theorem monthsSinceFloater_of_no_floater {l : List HistoryRecord}
    (h : ∀ r ∈ l, r.was_floater = false) : calculateMonthsSinceFloater l = l.length := by
  induction l with
  | nil => rfl
  | cons r t ih =>
    simp [calculateMonthsSinceFloater, h r (List.mem_cons_self r t),
      ih (fun x hx => h x (List.mem_cons_of_mem r hx))]

/-- C6 amended: when no floater record is among the up-to-3 newest records,
months-since-floater equals the number of records fetched (at most 3), which
coincides with the window length 3 only for employees with at least 3
records. -/
theorem c6_months_since_floater_amended (fullHistory : List HistoryRecord)
    (h : ∀ r ∈ fullHistory.take 3, r.was_floater = false) :
    (get_employee_context fullHistory 3).months_since_floater =
      (fullHistory.take 3).length := by
  simp only [get_employee_context]
  exact monthsSinceFloater_of_no_floater h

theorem c6_amended_witness :
    (get_employee_context histOneRecord 3).months_since_floater =
      (histOneRecord.take 3).length :=
  c6_months_since_floater_amended histOneRecord (by decide)

/-- C8: the cost gate blocks exactly when a calendar-window sum is greater
than or equal to its threshold (routes.py:75-79 use `>=`), so a daily sum of
exactly the $10 daily limit — and a monthly sum of exactly the $100 monthly
limit — is denied: both boundaries are inclusive. -/
theorem c8_cost_boundary_inclusive (logs : List UsageLog)
    (user_id day_start month_start : Nat) :
    ((check_cost_limits logs user_id day_start month_start).1 = false ↔
      (COST_DAILY_LIMIT ≤ sumCostSince logs user_id day_start ∨
        COST_MONTHLY_LIMIT ≤ sumCostSince logs user_id month_start)) ∧
    (sumCostSince logs user_id day_start = COST_DAILY_LIMIT →
      (check_cost_limits logs user_id day_start month_start).1 = false) ∧
    (sumCostSince logs user_id month_start = COST_MONTHLY_LIMIT →
      (check_cost_limits logs user_id day_start month_start).1 = false) := by
  refine ⟨?_, ?_, ?_⟩ <;> simp only [check_cost_limits]
  · split_ifs with h1 h2 <;> simp_all
  · intro h
    split_ifs with h1 h2 <;> simp_all
  · intro h
    split_ifs with h1 h2 <;> simp_all

theorem c8_cost_boundary_witness :
    (check_cost_limits logsAtLimit 1 0 0).1 = false :=
  (c8_cost_boundary_inclusive logsAtLimit 1 0 0).2.1
    (by simp [sumCostSince, logsAtLimit, COST_DAILY_LIMIT])

/-- C9: whenever the oracle interaction fails (network error, timeout,
malformed response — any exception inside the try block of
schedule.py:465-481), `validate_schedule_with_enhanced_ai` still returns a
structured report: the locally-found violations followed by the error note,
severity "high", and the manual-review recommendation.  The embedding is a
total function — no branch propagates the exception to the caller. -/
theorem c9_oracle_failure_degrades (rule_violations : List String) (err : String) :
    validate_schedule_with_enhanced_ai rule_violations (Except.error err) =
      { is_valid := false
        total_violations := rule_violations.length
        violations := rule_violations ++ ["AI validation error: " ++ err]
        severity := "high"
        recommendations := ["Manual review required due to AI validation failure"] } := rfl

/-- C10: the rate checker short-circuits to allowed with message
"Unknown action type" for any kind missing from `RATE_LIMITS`
(routes.py:38-39), whatever the user's call history; the kind `'generate'`
that both generation routes pass (routes.py:567, 794) is not configured
(only `'schedule_generation'` is), so generation requests are never denied
by the rate check. -/
theorem c10_unknown_action_allowed :
    (∀ logs now user_id, check_rate_limit logs now user_id "generate" =
      (true, "Unknown action type")) ∧
    (RATE_LIMITS.find? (fun p => p.1 == "generate")) = none ∧
    (RATE_LIMITS.find? (fun p => p.1 == "schedule_generation")).isSome = true ∧
    (∀ logs now user_id, generate_schedule_rate_check logs now user_id =
      (true, "Unknown action type")) ∧
    (∀ logs now user_id, batch_generate_rate_check logs now user_id =
      (true, "Unknown action type")) :=
  ⟨fun _ _ _ => rfl, rfl, rfl, fun _ _ _ => rfl, fun _ _ _ => rfl⟩

end Scheduler
